import Mathlib

/-!
Verification of `changebyus/app.py`, the bootstrap and wiring layer of the
CBU web application.  The Python module is embedded shallowly: YAML values
become the inductive `YVal`, the settings dictionary becomes `Settings`,
Python exceptions become the `PyError` error type of `Except`, and each
configurator or handler becomes a total Lean function mirroring the source
line by line.
-/

namespace CBU

/-- A YAML scalar as it arrives in `app.settings` (`yaml.load` of the config
file).  `null` models Python `None`. -/
inductive YVal where
  | null
  | bool (b : Bool)
  | int (n : Int)
  | str (s : String)
deriving DecidableEq, Repr

/-- Python truthiness of a YAML scalar: `None`, `False`, `0` and the empty
string are falsy, everything else is truthy. -/
def YVal.truthy : YVal → Bool
  | .null => false
  | .bool b => b
  | .int n => n != 0
  | .str s => s != ""

/-- The `LOGGING` section of the settings dictionary.  A field is `none`
when the key is missing from the dictionary (so subscripting it raises
`KeyError`) and `some v` when the key is present with scalar value `v`. -/
structure LoggingSection where
  SIZE_MB : Option YVal
  LEVEL : Option YVal
  NAME : Option YVal
  ROTATIONS : Option YVal
deriving DecidableEq, Repr

/-- Python truthiness of the `LOGGING` dictionary itself: a dict is truthy
iff it is non-empty, i.e. at least one key is present. -/
def LoggingSection.nonempty (sec : LoggingSection) : Bool :=
  sec.SIZE_MB.isSome || sec.LEVEL.isSome || sec.NAME.isSome || sec.ROTATIONS.isSome

/-- The slice of `app.settings` that `configure_logging` reads.  `LOGGING`
is `none` when the key is missing, `some none` when it is present but null,
and `some (some sec)` when it is a dictionary. -/
structure Settings where
  DEBUG : Bool
  LOGGING : Option (Option LoggingSection)
deriving DecidableEq, Repr

/-- A Python exception, as raised by the embedded code. -/
inductive PyError where
  | keyError (key : String)
  | typeError (msg : String)
  | valueError (msg : String)
  | attributeError (attr : String)
  | nameError (name : String)
  | unboundLocalError (name : String)
  | raised (msg : String)
deriving DecidableEq, Repr

/-- `megabyte = 1048576` (line 124 of `app.py`). -/
def megabyte : Int := 1048576

/-- Python `int(v)` on a YAML scalar: ints pass through, booleans become
0 or 1, strings are parsed (`ValueError` on failure), `None` raises
`TypeError`. -/
def intConv : YVal → Except PyError Int
  | .int n => .ok n
  | .bool b => .ok (if b then 1 else 0)
  | .str s =>
      match s.toInt? with
      | some n => .ok n
      | none => .error (.valueError "invalid literal for int")
  | .null => .error (.typeError "int argument must be a string or a number")

/-- The numeric logging levels exposed as attributes of Python's `logging`
module, as looked up by `logging.__getattribute__` on a level name. -/
def loggingLevelAttr : String → Option Int
  | "CRITICAL" => some 50
  | "FATAL" => some 50
  | "ERROR" => some 40
  | "WARNING" => some 30
  | "WARN" => some 30
  | "INFO" => some 20
  | "DEBUG" => some 10
  | "NOTSET" => some 0
  | _ => none

/-- `logging.__getattribute__(v)` (line 142): only a string naming a level
attribute succeeds; an unknown name raises `AttributeError`, a non-string
raises `TypeError`. -/
def getattrLevel : YVal → Except PyError Int
  | .str s =>
      match loggingLevelAttr s with
      | some n => .ok n
      | none => .error (.attributeError s)
  | _ => .error (.typeError "attribute name must be string")

/-- The `RotatingFileHandler` as configured by `configure_logging`: the
constructor arguments of lines 150-152 plus the level and format set on
lines 154-159.  The handler construction itself is a library call, so the
embedding records the arguments the source passes to it. -/
structure RotatingHandler where
  filename : YVal
  maxBytes : Int
  backupCount : YVal
  level : Int
  fmt : String
deriving DecidableEq, Repr

/-- Lines 150-159: the handler is built from `app.settings['LOGGING']['NAME']`
with `maxBytes=(25 * megabyte)` hard-coded; the `logsize` computed earlier in
the function is never used, and neither is the local `name` with its
`flask.log` default. -/
def buildHandler (fname : YVal) (level : Int) (backupCount : YVal) : RotatingHandler :=
  { filename := fname
    maxBytes := 25 * megabyte
    backupCount := backupCount
    level := level
    fmt := "%(asctime)s %(levelname)s: %(message)s [%(pathname)s:%(funcName)s:%(lineno)d]" }

/-- `configure_logging` (lines 114-161 of `app.py`).  Defaults: logsize 25MB,
rotations 10, name flask.log, level DEBUG/INFO by the DEBUG flag.  Each
subscript of a missing key raises `KeyError`; a null `LOGGING` value skips
the update block and then fails on line 150 subscripting `None`.  The
`SIZE_MB` conversion result (the local `logsize`) and the local `name` are
computed but never reach the handler, exactly as in the source. -/
def configure_logging (settings : Settings) : Except PyError RotatingHandler :=
  match settings.LOGGING with
  | none => .error (.keyError "LOGGING")
  | some none => .error (.typeError "NoneType object is unsubscriptable")
  | some (some sec) =>
    if sec.nonempty then
      match sec.SIZE_MB with
      | none => .error (.keyError "SIZE_MB")
      | some sz =>
        match (if sz.truthy then intConv sz else .ok 25 : Except PyError Int) with
        | .error e => .error e
        | .ok _sizeMB =>
          match sec.LEVEL with
          | none => .error (.keyError "LEVEL")
          | some lv =>
            match (if lv.truthy then getattrLevel lv
                   else .ok (if settings.DEBUG then 10 else 20) : Except PyError Int) with
            | .error e => .error e
            | .ok level =>
              match sec.NAME with
              | none => .error (.keyError "NAME")
              | some nm =>
                match sec.ROTATIONS with
                | none => .error (.keyError "ROTATIONS")
                | some rt =>
                  .ok (buildHandler nm level (if rt.truthy then rt else .int 10))
    else
      match sec.NAME with
      | none => .error (.keyError "NAME")
      | some nm => .ok (buildHandler nm (if settings.DEBUG then 10 else 20) (.int 10))

/-- Modelled from the spec: a Role is a "name-based permission grouping"
defined in the excluded user module; `on_identity_loaded` reads only its
name. -/
structure Role where
  name : String
deriving DecidableEq, Repr

/-- Modelled from the spec: an authored post, of which `on_identity_loaded`
reads only the id. -/
structure Post where
  id : String
deriving DecidableEq, Repr

/-- Modelled from the spec: the User entity ("identity, roles, authored
posts") of the excluded user module.  The id, roles and posts fields are
`Option` so that `hasattr(user, ...)` in `on_identity_loaded` can be false
(`none` models a missing attribute). -/
structure User where
  id : Option String
  email : String
  roles : Option (List Role)
  posts : Option (List Post)
deriving DecidableEq, Repr

/-- The value of `identity.name` when `on_identity_loaded` runs: Python
`None`, a bson `ObjectId` (its 24-hex-character payload), a string, or a
value of any other type (`otherVal` carries its `str()` form). -/
inductive IdentityName where
  | noneName
  | objectId (oid : String)
  | strName (s : String)
  | otherVal (v : String)
deriving DecidableEq, Repr

/-- Python `str(identity.name)`, as interpolated into the ambiguous-login
log message. -/
def IdentityName.pyStr : IdentityName → String
  | .noneName => "None"
  | .objectId oid => oid
  | .strName s => s
  | .otherVal v => v

/-- A permission need added to `identity.provides`.  `EditBlogPostNeed` is
what the source on line 247 tries (and fails) to construct. -/
inductive Need where
  | userNeed (id : String)
  | roleNeed (name : String)
  | editBlogPostNeed (postId : String)
deriving DecidableEq, Repr

/-- Lines 220-223: the user query, `User.objects(id=...)` for an ObjectId
and `User.objects(email=...)` for a string.  For any other non-None value
neither branch assigns, so the local `user` stays unbound: `none`. -/
def lookupUsers (db : List User) : IdentityName → Option (List User)
  | .objectId oid => some (db.filter (fun u => u.id == some oid))
  | .strName s => some (db.filter (fun u => u.email == s))
  | _ => none

/-- Line 226: the message logged before the ambiguous-login exception. -/
def ambiguousLog (n : IdentityName) : String :=
  "Got more than one match for user login " ++ n.pyStr

/-- Line 227: the message of the exception raised on an ambiguous login. -/
def ambiguousExceptionMsg : String :=
  "[on_identity_loaded] Error getting login information. Please contact an administrator"

/-- The observable outcome of one run of the `on_identity_loaded` handler:
the log lines emitted, the request-scoped `g.user` when the handler exits,
the `identity.provides` list when it exits (the set is mutated in place, so
adds made before an exception persist), and the exception that escaped, if
any (`none` means the handler returned normally). -/
structure HandlerRun where
  logs : List String
  gUser : Option User
  provides : List Need
  error : Option PyError
deriving DecidableEq, Repr

/-- `on_identity_loaded` (lines 212-250 of `app.py`).  `provides0` is the
permission set the identity arrives with; adds are modelled by appending.
Line 247 references `EditBlogPostNeed`, a name neither defined nor imported
anywhere in `app.py`, so the first authored post raises `NameError`; a
non-None `identity.name` that is neither an ObjectId nor a string leaves
the local `user` unassigned and line 225 raises `UnboundLocalError`. -/
def on_identity_loaded (db : List User) (name : IdentityName)
    (provides0 : List Need) : HandlerRun :=
  -- line 214: g.user = None
  match name with
  | .noneName => { logs := [], gUser := none, provides := provides0, error := none }
  | _ =>
    match lookupUsers db name with
    | none =>
      { logs := [], gUser := none, provides := provides0
        error := some (.unboundLocalError "user") }
    | some ms =>
      match ms with
      | _ :: _ :: _ =>
        -- lines 225-227: user.count() > 1, log first, then raise
        { logs := [ambiguousLog name]
          gUser := none
          provides := provides0
          error := some (.raised ambiguousExceptionMsg) }
      | [] =>
        -- lines 229-230: user.count() == 0, g.user stays None
        { logs := [], gUser := none, provides := provides0, error := none }
      | [u] =>
        -- line 232: user = user.first()
        let needs1 :=
          match u.id with
          | some uid => provides0 ++ [Need.userNeed uid]
          | none => provides0
        let needs2 :=
          match u.roles with
          | some rs => needs1 ++ rs.map (fun r => Need.roleNeed r.name)
          | none => needs1
        match u.posts with
        | some (_ :: _) =>
          -- line 247: EditBlogPostNeed is an undefined name, so the first
          -- authored post raises NameError before any edit need is added
          { logs := [], gUser := none, provides := needs2
            error := some (.nameError "EditBlogPostNeed") }
        | _ =>
          -- lines 249-250
          { logs := [], gUser := some u, provides := needs2, error := none }

/-- One logging call made by an error handler: `logger.error(msg)` or
`logger.exception(err)`. -/
inductive LogAction where
  | error (msg : String)
  | exception (msg : String)
deriving DecidableEq, Repr

/-- What a status-code handler produces: its logging calls in order and the
`error=` string passed to `render_template('error.html', ...)`. -/
structure ErrorResponse where
  logs : List LogAction
  body : String
deriving DecidableEq, Repr

/-- The `userStr` expression of the handlers (for example line 309): empty
for an anonymous user, otherwise the bracketed user id.  The handler input
is `some uid` when `g.user` is a known (non-anonymous) user with id `uid`,
`none` when it is anonymous. -/
def userAnnotation : Option String → String
  | none => ""
  | some uid => " user[" ++ uid ++ "] "

/-- Lines 307-313: the 400 handler. -/
def bad_request (gu : Option String) (error : String) : ErrorResponse :=
  { logs := [.error ("400 error occured " ++ userAnnotation gu ++ " : " ++ error),
             .exception error]
    body := "Sorry, this page is missing." }

/-- Lines 317-323: the 403 handler. -/
def forbidden_request (gu : Option String) (error : String) : ErrorResponse :=
  { logs := [.error ("403 error occured " ++ userAnnotation gu ++ " : " ++ error),
             .exception error]
    body := "Sorry, forbidden request." }

/-- Lines 326-329: the 404 handler.  Unlike the other four it logs only
`str(error)`, with no user annotation and no `logger.exception` call. -/
def not_found (gu : Option String) (error : String) : ErrorResponse :=
  { logs := [.error error]
    body := "Sorry, this page doesn't exist." }

/-- Lines 331-337: the 405 handler. -/
def no_permission (gu : Option String) (error : String) : ErrorResponse :=
  { logs := [.error ("405 error occured " ++ userAnnotation gu ++ " : " ++ error),
             .exception error]
    body := "Sorry, you're not authorized to see this page." }

/-- Lines 339-345: the 500 handler. -/
def internal_server_error (gu : Option String) (error : String) : ErrorResponse :=
  { logs := [.error ("500 error occured " ++ userAnnotation gu ++ " : " ++ error),
             .exception error]
    body := "Sorry, there was a server error." }

/-- Lines 350-356: the catch-all handler registered for `Exception`. -/
def internal_exception_handler (gu : Option String) (error : String) : ErrorResponse :=
  { logs := [.error ("Exception occured " ++ userAnnotation gu ++ " : " ++ error),
             .exception error]
    body := "Sorry, there was a server error." }

/-- A key under which `configure_error_handlers` registers a handler:
an HTTP status code, or the catch-all `Exception` class. -/
inductive HandlerKey where
  | status (code : Nat)
  | exceptionCatchAll
deriving DecidableEq, Repr

/-- `configure_error_handlers` (lines 292-356): the registrations it
performs, in order.  The five status handlers are always registered; the
catch-all is registered only under `app.config['DEBUG'] is False`
(line 349). -/
def configure_error_handlers (debug : Bool) :
    List (HandlerKey × (Option String → String → ErrorResponse)) :=
  [(.status 400, bad_request),
   (.status 403, forbidden_request),
   (.status 404, not_found),
   (.status 405, no_permission),
   (.status 500, internal_server_error)]
  ++ (if debug = false then [(.exceptionCatchAll, internal_exception_handler)] else [])

/-- The configurators `create_app` can call, one tag per
`configure_*` function of `app.py`. -/
inductive Configurator where
  | configureApp
  | configureLogging
  | configureDatabase
  | configureHook
  | configureBlueprints
  | configureMail
  | configureSecurity
  | configureErrorHandlers
  | configureMediaUploads
  | configureEncryption
deriving DecidableEq, BEq, Repr

/-- Lines 87-96 of `create_app`: the configurator calls in source order. -/
def create_app_sequence : List Configurator :=
  [.configureApp,
   .configureLogging,
   .configureDatabase,
   .configureHook,
   .configureBlueprints,
   .configureMail,
   .configureSecurity,
   .configureErrorHandlers,
   .configureMediaUploads,
   .configureEncryption]

/-- Modelled from the spec: the registration order listed in the system
overview (config loader, logger, database, hook, blueprints, mail,
security, uploads, encryption, error handlers), kept separate from
`create_app_sequence` so the two orders can be compared. -/
def spec_overview_sequence : List Configurator :=
  [.configureApp,
   .configureLogging,
   .configureDatabase,
   .configureHook,
   .configureBlueprints,
   .configureMail,
   .configureSecurity,
   .configureMediaUploads,
   .configureEncryption,
   .configureErrorHandlers]

/-! Concrete configurations used to exercise `configure_logging`. -/

/-- A settings dictionary with `LOGGING.SIZE_MB` set to 5 and every other
logging key present (null level, a name, 10 rotations). -/
def sizeFiveSettings : Settings :=
  { DEBUG := false
    LOGGING := some (some
      { SIZE_MB := some (.int 5), LEVEL := some .null
        NAME := some (.str "app.log"), ROTATIONS := some (.int 10) }) }

/-- A settings dictionary whose `LOGGING.NAME` is the empty string (falsy),
with the other logging keys present but null. -/
def emptyNameSettings : Settings :=
  { DEBUG := false
    LOGGING := some (some
      { SIZE_MB := some .null, LEVEL := some .null
        NAME := some (.str ""), ROTATIONS := some .null }) }

/-- A settings dictionary whose `LOGGING` section lacks the `ROTATIONS` key
entirely. -/
def rotationsMissingSettings : Settings :=
  { DEBUG := false
    LOGGING := some (some
      { SIZE_MB := some .null, LEVEL := some .null
        NAME := some (.str "flask.log"), ROTATIONS := none }) }

/-- Claim C1: the claim says the rotating handler's maxBytes equals
`SIZE_MB` megabytes, but line 151 of the source passes the hard-coded
`25 * megabyte` and never uses the computed `logsize`: with `SIZE_MB = 5`
the handler still gets 25MB. -/
theorem C1_maxBytes_ignores_size_mb :
    configure_logging sizeFiveSettings = .ok (buildHandler (.str "app.log") 20 (.int 10)) ∧
    (buildHandler (.str "app.log") 20 (.int 10)).maxBytes = 25 * megabyte ∧
    (buildHandler (.str "app.log") 20 (.int 10)).maxBytes ≠ 5 * megabyte := by
  refine ⟨rfl, rfl, by decide⟩

/-- Claim C6: the claim says an empty `LOGGING.NAME` falls back to
`flask.log`, but line 150 passes `app.settings['LOGGING']['NAME']` directly
to the handler, never the defaulted local `name`: an empty name reaches the
handler as the empty string. -/
theorem C6_empty_name_not_defaulted :
    configure_logging emptyNameSettings = .ok (buildHandler (.str "") 20 (.int 10)) ∧
    (buildHandler (.str "") 20 (.int 10)).filename ≠ .str "flask.log" := by
  refine ⟨rfl, by decide⟩

/-- Claim C7, counterexample: with the `ROTATIONS` key absent from a
non-empty `LOGGING` section, `configure_logging` raises `KeyError` on line
147 instead of producing a handler with backupCount 10. -/
theorem C7_counterexample :
    configure_logging rotationsMissingSettings = .error (.keyError "ROTATIONS") := rfl

/-! Concrete user records used to exercise `on_identity_loaded`. -/

/-- A user who has authored one post. -/
def authorUser : User :=
  { id := some "u1", email := "author@example.org"
    roles := some [{ name := "editor" }], posts := some [{ id := "p1" }] }

/-- Two distinct users sharing one email address. -/
def dupUserA : User :=
  { id := some "a1", email := "dup@example.org", roles := some [], posts := some [] }

/-- The second user with the duplicated email address. -/
def dupUserB : User :=
  { id := some "b1", email := "dup@example.org", roles := some [], posts := some [] }

/-- Claim C2: the claim says a user with authored posts gets an edit
permission per post and the handler completes without raising, but
`EditBlogPostNeed` on line 247 is defined nowhere in `app.py`, so the first
authored post raises `NameError`; only the id-based and role-based needs
added before the loop survive. -/
theorem C2_posts_raise_name_error :
    on_identity_loaded [authorUser] (.strName "author@example.org") [] =
      { logs := []
        gUser := none
        provides := [.userNeed "u1", .roleNeed "editor"]
        error := some (.nameError "EditBlogPostNeed") } := by
  rfl

/-- Claim C3: whenever the user lookup (by object id or by email) returns
more than one record, the handler logs the ambiguous-login error message
and raises, leaving `g.user` empty and the permission set untouched. -/
theorem C3_ambiguous_logs_then_raises (db : List User) (n : IdentityName)
    (provides0 : List Need) (u v : User) (rest : List User)
    (hl : lookupUsers db n = some (u :: v :: rest)) :
    on_identity_loaded db n provides0 =
      { logs := [ambiguousLog n]
        gUser := none
        provides := provides0
        error := some (.raised ambiguousExceptionMsg) } := by
  cases n with
  | noneName => simp [lookupUsers] at hl
  | otherVal w => simp [lookupUsers] at hl
  | objectId oid => simp [on_identity_loaded, hl]
  | strName s => simp [on_identity_loaded, hl]

/-- Claim C3, witness: two users registered under one email make the email
lookup ambiguous, so identity loading logs and raises. -/
theorem C3_ambiguous_witness :
    on_identity_loaded [dupUserA, dupUserB] (.strName "dup@example.org") [] =
      { logs := [ambiguousLog (.strName "dup@example.org")]
        gUser := none
        provides := []
        error := some (.raised ambiguousExceptionMsg) } :=
  C3_ambiguous_logs_then_raises [dupUserA, dupUserB] (.strName "dup@example.org") []
    dupUserA dupUserB [] (by rfl)

/-- Claim C9: a lookup that matches zero user records leaves `g.user`
empty, adds nothing to the permission set, and returns without raising. -/
theorem C9_zero_matches_no_user (db : List User) (n : IdentityName)
    (provides0 : List Need) (hl : lookupUsers db n = some []) :
    on_identity_loaded db n provides0 =
      { logs := [], gUser := none, provides := provides0, error := none } := by
  cases n with
  | noneName => simp [lookupUsers] at hl
  | otherVal w => simp [lookupUsers] at hl
  | objectId oid => simp [on_identity_loaded, hl]
  | strName s => simp [on_identity_loaded, hl]

/-- Claim C9, witness: an email lookup over an empty user collection
matches nothing and the handler returns normally with no user and no
permissions. -/
theorem C9_zero_matches_witness :
    on_identity_loaded [] (.strName "nobody@example.org") [] =
      { logs := [], gUser := none, provides := [], error := none } :=
  C9_zero_matches_no_user [] (.strName "nobody@example.org") [] (by rfl)

/-- Claim C10: a non-None `identity.name` that is neither an ObjectId nor a
string takes neither assignment branch on lines 220-223, so the local
`user` is unbound when line 225 evaluates `user.count()`: the handler fails
with `UnboundLocalError` instead of returning normally. -/
theorem C10_other_type_unbound_local (db : List User) (v : String)
    (provides0 : List Need) :
    on_identity_loaded db (.otherVal v) provides0 =
      { logs := [], gUser := none, provides := provides0
        error := some (.unboundLocalError "user") } := rfl

/-- Claim C4, counterexample: the 404 handler does not log the exception
(its log list is only the plain error string), so it is not true that all
five status handlers log the exception. -/
theorem C4_counterexample :
    ¬ (∀ (gu : Option String) (err : String),
        LogAction.exception err ∈ (not_found gu err).logs) := by
  intro h
  have h7 := h (some "u1") "boom"
  simp [not_found] at h7

/-- Claim C4, amended: the 400, 403, 405 and 500 handlers log one annotated
error message carrying the user annotation plus a `logger.exception` call
and render their status-specific page; the 404 handler logs only the plain
error string, with no user annotation and no exception log; the five
rendered strings are pairwise distinct. -/
theorem C4_handlers_amended (uid err : String) :
    bad_request (some uid) err =
      { logs := [.error ("400 error occured " ++ (" user[" ++ uid ++ "] ") ++ " : " ++ err),
                 .exception err]
        body := "Sorry, this page is missing." } ∧
    forbidden_request (some uid) err =
      { logs := [.error ("403 error occured " ++ (" user[" ++ uid ++ "] ") ++ " : " ++ err),
                 .exception err]
        body := "Sorry, forbidden request." } ∧
    not_found (some uid) err =
      { logs := [.error err]
        body := "Sorry, this page doesn't exist." } ∧
    no_permission (some uid) err =
      { logs := [.error ("405 error occured " ++ (" user[" ++ uid ++ "] ") ++ " : " ++ err),
                 .exception err]
        body := "Sorry, you're not authorized to see this page." } ∧
    internal_server_error (some uid) err =
      { logs := [.error ("500 error occured " ++ (" user[" ++ uid ++ "] ") ++ " : " ++ err),
                 .exception err]
        body := "Sorry, there was a server error." } ∧
    List.Pairwise (fun a b => a ≠ b)
      [(bad_request (some uid) err).body, (forbidden_request (some uid) err).body,
       (not_found (some uid) err).body, (no_permission (some uid) err).body,
       (internal_server_error (some uid) err).body] := by
  refine ⟨rfl, rfl, rfl, rfl, rfl, ?_⟩
  simp only [bad_request, forbidden_request, not_found, no_permission,
    internal_server_error]
  decide

/-- Claim C5, counterexample: the call order of `create_app` is not the
registration order listed in the system overview, which puts the
error-handler configurator last. -/
theorem C5_counterexample : create_app_sequence ≠ spec_overview_sequence := by
  decide

/-- Claim C5, amended: `create_app` calls the first seven configurators in
the order the overview lists, but then calls the error-handler configurator
eighth, before media uploads (ninth) and encryption (last): the
error-handler configurator is not last. -/
theorem C5_order_amended :
    create_app_sequence.take 7 = spec_overview_sequence.take 7 ∧
    create_app_sequence.indexOf .configureErrorHandlers = 7 ∧
    create_app_sequence.indexOf .configureMediaUploads = 8 ∧
    create_app_sequence.indexOf .configureEncryption = 9 ∧
    create_app_sequence.length = 10 ∧
    create_app_sequence.getLast? = some .configureEncryption := by
  decide

/-- Claim C8: the catch-all `Exception` handler is registered exactly when
`DEBUG` is false (production); with `DEBUG` true nothing is registered for
it, so unhandled exceptions propagate. -/
theorem C8_catch_all_iff_production (d : Bool) :
    HandlerKey.exceptionCatchAll ∈ (configure_error_handlers d).map Prod.fst ↔
      d = false := by
  cases d <;> simp [configure_error_handlers]

/-- Whenever `configure_logging` succeeds on a settings dictionary whose
`LOGGING` section carries a `ROTATIONS` value `rt`, the handler's
backupCount is `rt` when `rt` is truthy and 10 otherwise (lines 147-148 and
152). -/
theorem configure_logging_backupCount (d : Bool) (sec : LoggingSection)
    (hdl : RotatingHandler) (rt : YVal)
    (hok : configure_logging { DEBUG := d, LOGGING := some (some sec) } = .ok hdl)
    (hrt : sec.ROTATIONS = some rt) :
    hdl.backupCount = if rt.truthy then rt else .int 10 := by
  rcases sec with ⟨szv, lvv, nmv, rtv⟩
  have hrt2 : rtv = some rt := hrt
  subst hrt2
  rcases szv with _ | sz <;> rcases lvv with _ | lv <;> rcases nmv with _ | nm <;>
    simp [configure_logging, LoggingSection.nonempty] at hok
  all_goals repeat' split at hok
  all_goals first
    | exact Except.noConfusion hok
    | (injection hok with h; subst h; rfl)
    | (injection hok with h; subst h; simp_all [buildHandler])
    | simp_all

/-- When the `ROTATIONS` key is missing from the `LOGGING` section,
`configure_logging` never returns a handler: some subscript raises
(`ROTATIONS` itself on line 147 at the latest, or `NAME` on line 150 when
the section is empty). -/
theorem configure_logging_rotations_missing (d : Bool) (sec : LoggingSection)
    (hrt : sec.ROTATIONS = none) :
    ∀ hdl : RotatingHandler,
      configure_logging { DEBUG := d, LOGGING := some (some sec) } ≠ .ok hdl := by
  intro hdl hok
  rcases sec with ⟨szv, lvv, nmv, rtv⟩
  have hrt2 : rtv = none := hrt
  subst hrt2
  rcases szv with _ | sz <;> rcases lvv with _ | lv <;> rcases nmv with _ | nm <;>
    simp [configure_logging, LoggingSection.nonempty] at hok
  all_goals repeat' split at hok
  all_goals first
    | exact Except.noConfusion hok
    | simp_all

/-- Claim C7, amended: a `ROTATIONS` value of nonzero `R` gives
backupCount `R` and a present-but-null `ROTATIONS` gives the default 10,
but an absent `ROTATIONS` key makes `configure_logging` raise a `KeyError`
instead of applying the default. -/
theorem C7_rotations_amended (d : Bool) (sec : LoggingSection) :
    (∀ (hdl : RotatingHandler) (R : Int),
        configure_logging { DEBUG := d, LOGGING := some (some sec) } = .ok hdl →
        sec.ROTATIONS = some (.int R) → R ≠ 0 →
        hdl.backupCount = .int R) ∧
    (∀ hdl : RotatingHandler,
        configure_logging { DEBUG := d, LOGGING := some (some sec) } = .ok hdl →
        sec.ROTATIONS = some .null →
        hdl.backupCount = .int 10) ∧
    (sec.ROTATIONS = none →
        ∀ hdl : RotatingHandler,
          configure_logging { DEBUG := d, LOGGING := some (some sec) } ≠ .ok hdl) := by
  refine ⟨?_, ?_, configure_logging_rotations_missing d sec⟩
  · intro hdl R hok hrt hR
    have h := configure_logging_backupCount d sec hdl (.int R) hok hrt
    simpa [YVal.truthy, hR] using h
  · intro hdl hok hrt
    have h := configure_logging_backupCount d sec hdl .null hok hrt
    simpa [YVal.truthy] using h

/-- The `LOGGING` section of the claim C7 example: `ROTATIONS = 5`, the
other keys present (null size and level, a file name). -/
def rotationsFiveSection : LoggingSection :=
  { SIZE_MB := some .null, LEVEL := some .null
    NAME := some (.str "flask.log"), ROTATIONS := some (.int 5) }

/-- Claim C7, witness: with `LOGGING.ROTATIONS = 5` the resulting handler
has backupCount 5. -/
theorem C7_rotations_witness :
    configure_logging { DEBUG := false, LOGGING := some (some rotationsFiveSection) } =
      .ok (buildHandler (.str "flask.log") 20 (.int 5)) ∧
    (buildHandler (.str "flask.log") 20 (.int 5)).backupCount = .int 5 :=
  ⟨rfl,
   (C7_rotations_amended false rotationsFiveSection).1
     (buildHandler (.str "flask.log") 20 (.int 5)) 5 rfl rfl (by decide)⟩

end CBU
